import Mathlib

/-!
Shallow embedding of the Language catalog and codec and the typed scalar
wrappers of the steam_user_reviews repository, together with proofs about
the string projection tables and the parser.
-/

set_option maxHeartbeats 2000000

namespace SteamUserReviews

/-- The closed language enumeration, in source declaration order. -/
inductive Language where
  | All
  | Arabic
  | Bulgarian
  | SimplifiedChinese
  | TraditionalChinese
  | Czech
  | Danish
  | Dutch
  | English
  | Finnish
  | French
  | German
  | Greek
  | Hungarian
  | Italian
  | Japanese
  | Korean
  | Norwegian
  | Polish
  | Portuguese
  | PortugueseBrazilian
  | Romanian
  | Russian
  | SpanishSpain
  | SpanishLatAm
  | Swedish
  | Thai
  | Turkish
  | Ukrainian
  | Vietnamese
  deriving DecidableEq, Fintype

/-- The stateless parse failure error: a unit struct carrying no payload. -/
structure LangParseError where
  deriving DecidableEq

/-- The fixed Display message of LangParseError. -/
def langParseErrorMessage (_ : LangParseError) : String :=
  "Tried to a parse an unlisted language. Please report! Valve probably added in new languages since I last updated."

/-- Wire form of each variant, per the as_str table. -/
def Language.as_str : Language → String
  | .All => "all"
  | .Arabic => "arabic"
  | .Bulgarian => "bulgarian"
  | .SimplifiedChinese => "schinese"
  | .TraditionalChinese => "tchinese"
  | .Czech => "czech"
  | .Danish => "danish"
  | .Dutch => "dutch"
  | .English => "english"
  | .Finnish => "finnish"
  | .French => "french"
  | .German => "german"
  | .Greek => "greek"
  | .Hungarian => "hungarian"
  | .Italian => "italian"
  | .Japanese => "japanese"
  | .Korean => "koreana"
  | .Norwegian => "norwegian"
  | .Polish => "polish"
  | .Portuguese => "portuguese"
  | .PortugueseBrazilian => "brazilian"
  | .Romanian => "romanian"
  | .Russian => "russian"
  | .SpanishSpain => "spanish"
  | .SpanishLatAm => "latam"
  | .Swedish => "swedish"
  | .Thai => "thai"
  | .Turkish => "turkish"
  | .Ukrainian => "ukrainian"
  | .Vietnamese => "vietnamese"

/-- Shorthand language code of each variant, per the language_code table. -/
def Language.language_code : Language → String
  | .All => "all"
  | .Arabic => "ar"
  | .Bulgarian => "bg"
  | .SimplifiedChinese => "zh-CN"
  | .TraditionalChinese => "zh-TW"
  | .Czech => "cs"
  | .Danish => "da"
  | .Dutch => "nl"
  | .English => "en"
  | .Finnish => "fi"
  | .French => "fr"
  | .German => "de"
  | .Greek => "el el"
  | .Hungarian => "hu"
  | .Italian => "it"
  | .Japanese => "ja"
  | .Korean => "ko"
  | .Norwegian => "no"
  | .Polish => "pl"
  | .Portuguese => "pt"
  | .PortugueseBrazilian => "pt-BR"
  | .Romanian => "ro"
  | .Russian => "ru"
  | .SpanishSpain => "es"
  | .SpanishLatAm => "es-419"
  | .Swedish => "sv"
  | .Thai => "th"
  | .Turkish => "tr"
  | .Ukrainian => "uk"
  | .Vietnamese => "vn"

/-- Native name of each variant, per the native_name table; corrupted placeholder bytes of the source are preserved literally. -/
def Language.native_name : Language → String
  | .All => "All"
  | .Arabic => "??????????????"
  | .Bulgarian => "?????????????????? ????????"
  | .SimplifiedChinese => "????????????"
  | .TraditionalChinese => "????????????"
  | .Czech => "??e??tina"
  | .Danish => "Dansk"
  | .Dutch => "Nederlands"
  | .English => "English"
  | .Finnish => "Suomi"
  | .French => "Fran??ais"
  | .German => "Deutsch"
  | .Greek => "????????????????"
  | .Hungarian => "Magyar"
  | .Italian => "Italiano"
  | .Japanese => "?????????"
  | .Korean => "?????????"
  | .Norwegian => "Norsk"
  | .Polish => "Polski"
  | .Portuguese => "Portugu??s"
  | .PortugueseBrazilian => "Portugu??s-Brasil"
  | .Romanian => "Rom??n??"
  | .Russian => "??????????????"
  | .SpanishSpain => "Espa??ol-Espa??a"
  | .SpanishLatAm => "Espa??ol-Latinoam??rica"
  | .Swedish => "Svenska"
  | .Thai => "?????????"
  | .Turkish => "T??rk??e"
  | .Ukrainian => "????????????????????"
  | .Vietnamese => "Ti???ng Vi???t"

/-- Display for Language delegates to the wire form. -/
def Language.display (v : Language) : String := v.as_str

/-- The parser: a sequential first-match-wins translation of the from_str
match expression, arm for arm and string for string. -/
def Language.from_str (s : String) : Except LangParseError Language :=
  if s = "all" then .ok .All
  else if s = "arabic" ∨ s = "??????????????" ∨ s = "ar" then .ok .Arabic
  else if s = "bulgarian" ∨ s = "?????????????????? ????????" ∨ s = "bg" then .ok .Bulgarian
  else if s = "schinese" ∨ s = "????????????" ∨ s = "zh-CN" then .ok .SimplifiedChinese
  else if s = "tchinese" ∨ s = "????????????" ∨ s = "zh-TW" then .ok .TraditionalChinese
  else if s = "czech" ∨ s = "??e??tina" ∨ s = "cs" then .ok .Czech
  else if s = "danish" ∨ s = "Dansk" ∨ s = "da" then .ok .Danish
  else if s = "dutch" ∨ s = "Nederlands" ∨ s = "nl" then .ok .Dutch
  else if s = "english" ∨ s = "English" ∨ s = "en" then .ok .English
  else if s = "finnish" ∨ s = "Suomi" ∨ s = "fl" then .ok .Finnish
  else if s = "french" ∨ s = "Fran??ais" ∨ s = "fr" then .ok .French
  else if s = "german" ∨ s = "Deutsch" ∨ s = "de" then .ok .German
  else if s = "greek" ∨ s = "????????????????" ∨ s = "el" then .ok .Greek
  else if s = "hungarian" ∨ s = "Magyar" ∨ s = "hu" then .ok .Hungarian
  else if s = "italian" ∨ s = "Italiano" ∨ s = "it" then .ok .Italian
  else if s = "japanese" ∨ s = "?????????" ∨ s = "ja" then .ok .Japanese
  else if s = "koreana" ∨ s = "?????????" ∨ s = "ko" then .ok .Korean
  else if s = "norwegian" ∨ s = "Norsk" ∨ s = "no" then .ok .Norwegian
  else if s = "polish" ∨ s = "Polski" ∨ s = "pl" then .ok .Polish
  else if s = "portuguese" ∨ s = "Portugu??s" ∨ s = "pt" then .ok .Portuguese
  else if s = "brazilian" ∨ s = "Portugu??s-Brasil" ∨ s = "pt-BR" then .ok .PortugueseBrazilian
  else if s = "romanian" ∨ s = "Rom??n??" ∨ s = "ro" then .ok .Romanian
  else if s = "russian" ∨ s = "??????????????" ∨ s = "ru" then .ok .Russian
  else if s = "spanish" ∨ s = "Espa??ol-Espa??a" ∨ s = "es" then .ok .SpanishSpain
  else if s = "latam" ∨ s = "Espa??ol-Latinoam??rica" ∨ s = "es-419" then .ok .SpanishLatAm
  else if s = "swedish" ∨ s = "Svenska" ∨ s = "sv" then .ok .Swedish
  else if s = "thai" ∨ s = "?????????" ∨ s = "th" then .ok .Thai
  else if s = "turkish" ∨ s = "T??rk??e" ∨ s = "tr" then .ok .Turkish
  else if s = "ukrainian" ∨ s = "????????????????????" ∨ s = "uk" then .ok .Ukrainian
  else if s = "vietnamese" ∨ s = "Ti???ng Vi???t" ∨ s = "vn" then .ok .Vietnamese
  else .error ⟨⟩

/-- All variants in declaration order. -/
def all_languages : List Language :=
  [.All, .Arabic, .Bulgarian, .SimplifiedChinese, .TraditionalChinese, .Czech, .Danish, .Dutch, .English, .Finnish, .French, .German, .Greek, .Hungarian, .Italian, .Japanese, .Korean, .Norwegian, .Polish, .Portuguese, .PortugueseBrazilian, .Romanian, .Russian, .SpanishSpain, .SpanishLatAm, .Swedish, .Thai, .Turkish, .Ukrainian, .Vietnamese]

/-- First pattern of each from_str arm. -/
def parser_wire : Language → String
  | .All => "all"
  | .Arabic => "arabic"
  | .Bulgarian => "bulgarian"
  | .SimplifiedChinese => "schinese"
  | .TraditionalChinese => "tchinese"
  | .Czech => "czech"
  | .Danish => "danish"
  | .Dutch => "dutch"
  | .English => "english"
  | .Finnish => "finnish"
  | .French => "french"
  | .German => "german"
  | .Greek => "greek"
  | .Hungarian => "hungarian"
  | .Italian => "italian"
  | .Japanese => "japanese"
  | .Korean => "koreana"
  | .Norwegian => "norwegian"
  | .Polish => "polish"
  | .Portuguese => "portuguese"
  | .PortugueseBrazilian => "brazilian"
  | .Romanian => "romanian"
  | .Russian => "russian"
  | .SpanishSpain => "spanish"
  | .SpanishLatAm => "latam"
  | .Swedish => "swedish"
  | .Thai => "thai"
  | .Turkish => "turkish"
  | .Ukrainian => "ukrainian"
  | .Vietnamese => "vietnamese"

/-- Second pattern of each from_str arm, when the arm has one. -/
def parser_native : Language → Option String
  | .All => none
  | .Arabic => some "??????????????"
  | .Bulgarian => some "?????????????????? ????????"
  | .SimplifiedChinese => some "????????????"
  | .TraditionalChinese => some "????????????"
  | .Czech => some "??e??tina"
  | .Danish => some "Dansk"
  | .Dutch => some "Nederlands"
  | .English => some "English"
  | .Finnish => some "Suomi"
  | .French => some "Fran??ais"
  | .German => some "Deutsch"
  | .Greek => some "????????????????"
  | .Hungarian => some "Magyar"
  | .Italian => some "Italiano"
  | .Japanese => some "?????????"
  | .Korean => some "?????????"
  | .Norwegian => some "Norsk"
  | .Polish => some "Polski"
  | .Portuguese => some "Portugu??s"
  | .PortugueseBrazilian => some "Portugu??s-Brasil"
  | .Romanian => some "Rom??n??"
  | .Russian => some "??????????????"
  | .SpanishSpain => some "Espa??ol-Espa??a"
  | .SpanishLatAm => some "Espa??ol-Latinoam??rica"
  | .Swedish => some "Svenska"
  | .Thai => some "?????????"
  | .Turkish => some "T??rk??e"
  | .Ukrainian => some "????????????????????"
  | .Vietnamese => some "Ti???ng Vi???t"

/-- Third pattern of each from_str arm, when the arm has one. -/
def parser_short : Language → Option String
  | .All => none
  | .Arabic => some "ar"
  | .Bulgarian => some "bg"
  | .SimplifiedChinese => some "zh-CN"
  | .TraditionalChinese => some "zh-TW"
  | .Czech => some "cs"
  | .Danish => some "da"
  | .Dutch => some "nl"
  | .English => some "en"
  | .Finnish => some "fl"
  | .French => some "fr"
  | .German => some "de"
  | .Greek => some "el"
  | .Hungarian => some "hu"
  | .Italian => some "it"
  | .Japanese => some "ja"
  | .Korean => some "ko"
  | .Norwegian => some "no"
  | .Polish => some "pl"
  | .Portuguese => some "pt"
  | .PortugueseBrazilian => some "pt-BR"
  | .Romanian => some "ro"
  | .Russian => some "ru"
  | .SpanishSpain => some "es"
  | .SpanishLatAm => some "es-419"
  | .Swedish => some "sv"
  | .Thai => some "th"
  | .Turkish => some "tr"
  | .Ukrainian => some "uk"
  | .Vietnamese => some "vn"

/-- Reference three phase parser built from the words of the specification:
exact match on the as_str wire forms in declaration order, then on the
native_name table, then on the language_code table, else the failure marker. -/
def from_str_spec (s : String) : Except LangParseError Language :=
  match all_languages.find? (fun v => Language.as_str v == s) with
  | some v => .ok v
  | none =>
    match all_languages.find? (fun v => Language.native_name v == s) with
    | some v => .ok v
    | none =>
      match all_languages.find? (fun v => Language.language_code v == s) with
      | some v => .ok v
      | none => .error ⟨⟩

/-- Three phase parser over the from_str arms own three pattern columns:
wire patterns, then second patterns, then third patterns, each searched in
declaration order. -/
def from_str_ref (s : String) : Except LangParseError Language :=
  match all_languages.find? (fun v => parser_wire v == s) with
  | some v => .ok v
  | none =>
    match all_languages.find? (fun v => parser_native v == some s) with
    | some v => .ok v
    | none =>
      match all_languages.find? (fun v => parser_short v == some s) with
      | some v => .ok v
      | none => .error ⟨⟩

/-- Minutes wraps an unsigned 32 bit integer, modelled as Nat. -/
structure Minutes where
  val : Nat
  deriving DecidableEq

/-- Deserialize a Minutes from a wire u32: plain wrapping, no validation. -/
def Minutes.deserialize (n : Nat) : Minutes := ⟨n⟩

/-- Serialize a Minutes back to its wire u32. -/
def Minutes.serialize (m : Minutes) : Nat := m.val

/-- UnixTimestamp wraps a signed 64 bit integer, modelled as Int. -/
structure UnixTimestamp where
  val : Int
  deriving DecidableEq

/-- Deserialize a UnixTimestamp from a wire i64: plain wrapping, no validation. -/
def UnixTimestamp.deserialize (i : Int) : UnixTimestamp := ⟨i⟩

/-- Serialize a UnixTimestamp back to its wire i64. -/
def UnixTimestamp.serialize (t : UnixTimestamp) : Int := t.val

/-- The Into i64 conversion of UnixTimestamp. -/
def UnixTimestamp.into_i64 (t : UnixTimestamp) : Int := t.val

instance : DecidableEq (Except LangParseError Language) := fun a b =>
  match a, b with
  | .ok x, .ok y =>
    match decEq x y with
    | isTrue h => isTrue (by rw [h])
    | isFalse h => isFalse (fun hh => h (by cases hh; rfl))
  | .error e1, .error e2 => isTrue (by cases e1; cases e2; rfl)
  | .ok _, .error _ => isFalse (fun hh => Except.noConfusion hh)
  | .error _, .ok _ => isFalse (fun hh => Except.noConfusion hh)

/-- When no pattern column of any variant matches s, the reference parser fails. -/
theorem from_str_ref_eq_error (s : String)
    (h : ∀ v : Language, parser_wire v ≠ s ∧ parser_native v ≠ some s ∧ parser_short v ≠ some s) :
    from_str_ref s = .error ⟨⟩ := by
  unfold from_str_ref
  rw [List.find?_eq_none.mpr (fun v _ => by simp [(h v).1]),
      List.find?_eq_none.mpr (fun v _ => by simp [(h v).2.1]),
      List.find?_eq_none.mpr (fun v _ => by simp [(h v).2.2])]

/-- The parser agrees with the three phase reference over its own pattern columns. -/
theorem from_str_eq_ref (s : String) : Language.from_str s = from_str_ref s := by
  unfold Language.from_str
  by_cases h1 : s = "all"
  · rw [if_pos h1]
    subst h1
    rfl
  · rw [if_neg h1]
    by_cases h2 : s = "arabic" ∨ s = "??????????????" ∨ s = "ar"
    · rw [if_pos h2]
      rcases h2 with rfl | rfl | rfl <;> rfl
    · rw [if_neg h2]
      by_cases h3 : s = "bulgarian" ∨ s = "?????????????????? ????????" ∨ s = "bg"
      · rw [if_pos h3]
        rcases h3 with rfl | rfl | rfl <;> rfl
      · rw [if_neg h3]
        by_cases h4 : s = "schinese" ∨ s = "????????????" ∨ s = "zh-CN"
        · rw [if_pos h4]
          rcases h4 with rfl | rfl | rfl <;> rfl
        · rw [if_neg h4]
          by_cases h5 : s = "tchinese" ∨ s = "????????????" ∨ s = "zh-TW"
          · rw [if_pos h5]
            rcases h5 with rfl | rfl | rfl
            · rfl
            · exact absurd (Or.inr (Or.inl rfl)) h4
            · rfl
          · rw [if_neg h5]
            by_cases h6 : s = "czech" ∨ s = "??e??tina" ∨ s = "cs"
            · rw [if_pos h6]
              rcases h6 with rfl | rfl | rfl <;> rfl
            · rw [if_neg h6]
              by_cases h7 : s = "danish" ∨ s = "Dansk" ∨ s = "da"
              · rw [if_pos h7]
                rcases h7 with rfl | rfl | rfl <;> rfl
              · rw [if_neg h7]
                by_cases h8 : s = "dutch" ∨ s = "Nederlands" ∨ s = "nl"
                · rw [if_pos h8]
                  rcases h8 with rfl | rfl | rfl <;> rfl
                · rw [if_neg h8]
                  by_cases h9 : s = "english" ∨ s = "English" ∨ s = "en"
                  · rw [if_pos h9]
                    rcases h9 with rfl | rfl | rfl <;> rfl
                  · rw [if_neg h9]
                    by_cases h10 : s = "finnish" ∨ s = "Suomi" ∨ s = "fl"
                    · rw [if_pos h10]
                      rcases h10 with rfl | rfl | rfl <;> rfl
                    · rw [if_neg h10]
                      by_cases h11 : s = "french" ∨ s = "Fran??ais" ∨ s = "fr"
                      · rw [if_pos h11]
                        rcases h11 with rfl | rfl | rfl <;> rfl
                      · rw [if_neg h11]
                        by_cases h12 : s = "german" ∨ s = "Deutsch" ∨ s = "de"
                        · rw [if_pos h12]
                          rcases h12 with rfl | rfl | rfl <;> rfl
                        · rw [if_neg h12]
                          by_cases h13 : s = "greek" ∨ s = "????????????????" ∨ s = "el"
                          · rw [if_pos h13]
                            rcases h13 with rfl | rfl | rfl <;> rfl
                          · rw [if_neg h13]
                            by_cases h14 : s = "hungarian" ∨ s = "Magyar" ∨ s = "hu"
                            · rw [if_pos h14]
                              rcases h14 with rfl | rfl | rfl <;> rfl
                            · rw [if_neg h14]
                              by_cases h15 : s = "italian" ∨ s = "Italiano" ∨ s = "it"
                              · rw [if_pos h15]
                                rcases h15 with rfl | rfl | rfl <;> rfl
                              · rw [if_neg h15]
                                by_cases h16 : s = "japanese" ∨ s = "?????????" ∨ s = "ja"
                                · rw [if_pos h16]
                                  rcases h16 with rfl | rfl | rfl <;> rfl
                                · rw [if_neg h16]
                                  by_cases h17 : s = "koreana" ∨ s = "?????????" ∨ s = "ko"
                                  · rw [if_pos h17]
                                    rcases h17 with rfl | rfl | rfl
                                    · rfl
                                    · exact absurd (Or.inr (Or.inl rfl)) h16
                                    · rfl
                                  · rw [if_neg h17]
                                    by_cases h18 : s = "norwegian" ∨ s = "Norsk" ∨ s = "no"
                                    · rw [if_pos h18]
                                      rcases h18 with rfl | rfl | rfl <;> rfl
                                    · rw [if_neg h18]
                                      by_cases h19 : s = "polish" ∨ s = "Polski" ∨ s = "pl"
                                      · rw [if_pos h19]
                                        rcases h19 with rfl | rfl | rfl <;> rfl
                                      · rw [if_neg h19]
                                        by_cases h20 : s = "portuguese" ∨ s = "Portugu??s" ∨ s = "pt"
                                        · rw [if_pos h20]
                                          rcases h20 with rfl | rfl | rfl <;> rfl
                                        · rw [if_neg h20]
                                          by_cases h21 : s = "brazilian" ∨ s = "Portugu??s-Brasil" ∨ s = "pt-BR"
                                          · rw [if_pos h21]
                                            rcases h21 with rfl | rfl | rfl <;> rfl
                                          · rw [if_neg h21]
                                            by_cases h22 : s = "romanian" ∨ s = "Rom??n??" ∨ s = "ro"
                                            · rw [if_pos h22]
                                              rcases h22 with rfl | rfl | rfl <;> rfl
                                            · rw [if_neg h22]
                                              by_cases h23 : s = "russian" ∨ s = "??????????????" ∨ s = "ru"
                                              · rw [if_pos h23]
                                                rcases h23 with rfl | rfl | rfl
                                                · rfl
                                                · exact absurd (Or.inr (Or.inl rfl)) h2
                                                · rfl
                                              · rw [if_neg h23]
                                                by_cases h24 : s = "spanish" ∨ s = "Espa??ol-Espa??a" ∨ s = "es"
                                                · rw [if_pos h24]
                                                  rcases h24 with rfl | rfl | rfl <;> rfl
                                                · rw [if_neg h24]
                                                  by_cases h25 : s = "latam" ∨ s = "Espa??ol-Latinoam??rica" ∨ s = "es-419"
                                                  · rw [if_pos h25]
                                                    rcases h25 with rfl | rfl | rfl <;> rfl
                                                  · rw [if_neg h25]
                                                    by_cases h26 : s = "swedish" ∨ s = "Svenska" ∨ s = "sv"
                                                    · rw [if_pos h26]
                                                      rcases h26 with rfl | rfl | rfl <;> rfl
                                                    · rw [if_neg h26]
                                                      by_cases h27 : s = "thai" ∨ s = "?????????" ∨ s = "th"
                                                      · rw [if_pos h27]
                                                        rcases h27 with rfl | rfl | rfl
                                                        · rfl
                                                        · exact absurd (Or.inr (Or.inl rfl)) h16
                                                        · rfl
                                                      · rw [if_neg h27]
                                                        by_cases h28 : s = "turkish" ∨ s = "T??rk??e" ∨ s = "tr"
                                                        · rw [if_pos h28]
                                                          rcases h28 with rfl | rfl | rfl <;> rfl
                                                        · rw [if_neg h28]
                                                          by_cases h29 : s = "ukrainian" ∨ s = "????????????????????" ∨ s = "uk"
                                                          · rw [if_pos h29]
                                                            rcases h29 with rfl | rfl | rfl <;> rfl
                                                          · rw [if_neg h29]
                                                            by_cases h30 : s = "vietnamese" ∨ s = "Ti???ng Vi???t" ∨ s = "vn"
                                                            · rw [if_pos h30]
                                                              rcases h30 with rfl | rfl | rfl <;> rfl
                                                            · rw [if_neg h30]
                                                              have hall : ∀ v : Language, parser_wire v ≠ s ∧ parser_native v ≠ some s ∧ parser_short v ≠ some s := by
                                                                intro v
                                                                cases v with
                                                                | All => exact ⟨fun e => h1 e.symm, fun e => Option.noConfusion e, fun e => Option.noConfusion e⟩
                                                                | Arabic => exact ⟨fun e => h2 (Or.inl e.symm), fun e => h2 (Or.inr (Or.inl (Option.some.inj e).symm)), fun e => h2 (Or.inr (Or.inr (Option.some.inj e).symm))⟩
                                                                | Bulgarian => exact ⟨fun e => h3 (Or.inl e.symm), fun e => h3 (Or.inr (Or.inl (Option.some.inj e).symm)), fun e => h3 (Or.inr (Or.inr (Option.some.inj e).symm))⟩
                                                                | SimplifiedChinese => exact ⟨fun e => h4 (Or.inl e.symm), fun e => h4 (Or.inr (Or.inl (Option.some.inj e).symm)), fun e => h4 (Or.inr (Or.inr (Option.some.inj e).symm))⟩
                                                                | TraditionalChinese => exact ⟨fun e => h5 (Or.inl e.symm), fun e => h5 (Or.inr (Or.inl (Option.some.inj e).symm)), fun e => h5 (Or.inr (Or.inr (Option.some.inj e).symm))⟩
                                                                | Czech => exact ⟨fun e => h6 (Or.inl e.symm), fun e => h6 (Or.inr (Or.inl (Option.some.inj e).symm)), fun e => h6 (Or.inr (Or.inr (Option.some.inj e).symm))⟩
                                                                | Danish => exact ⟨fun e => h7 (Or.inl e.symm), fun e => h7 (Or.inr (Or.inl (Option.some.inj e).symm)), fun e => h7 (Or.inr (Or.inr (Option.some.inj e).symm))⟩
                                                                | Dutch => exact ⟨fun e => h8 (Or.inl e.symm), fun e => h8 (Or.inr (Or.inl (Option.some.inj e).symm)), fun e => h8 (Or.inr (Or.inr (Option.some.inj e).symm))⟩
                                                                | English => exact ⟨fun e => h9 (Or.inl e.symm), fun e => h9 (Or.inr (Or.inl (Option.some.inj e).symm)), fun e => h9 (Or.inr (Or.inr (Option.some.inj e).symm))⟩
                                                                | Finnish => exact ⟨fun e => h10 (Or.inl e.symm), fun e => h10 (Or.inr (Or.inl (Option.some.inj e).symm)), fun e => h10 (Or.inr (Or.inr (Option.some.inj e).symm))⟩
                                                                | French => exact ⟨fun e => h11 (Or.inl e.symm), fun e => h11 (Or.inr (Or.inl (Option.some.inj e).symm)), fun e => h11 (Or.inr (Or.inr (Option.some.inj e).symm))⟩
                                                                | German => exact ⟨fun e => h12 (Or.inl e.symm), fun e => h12 (Or.inr (Or.inl (Option.some.inj e).symm)), fun e => h12 (Or.inr (Or.inr (Option.some.inj e).symm))⟩
                                                                | Greek => exact ⟨fun e => h13 (Or.inl e.symm), fun e => h13 (Or.inr (Or.inl (Option.some.inj e).symm)), fun e => h13 (Or.inr (Or.inr (Option.some.inj e).symm))⟩
                                                                | Hungarian => exact ⟨fun e => h14 (Or.inl e.symm), fun e => h14 (Or.inr (Or.inl (Option.some.inj e).symm)), fun e => h14 (Or.inr (Or.inr (Option.some.inj e).symm))⟩
                                                                | Italian => exact ⟨fun e => h15 (Or.inl e.symm), fun e => h15 (Or.inr (Or.inl (Option.some.inj e).symm)), fun e => h15 (Or.inr (Or.inr (Option.some.inj e).symm))⟩
                                                                | Japanese => exact ⟨fun e => h16 (Or.inl e.symm), fun e => h16 (Or.inr (Or.inl (Option.some.inj e).symm)), fun e => h16 (Or.inr (Or.inr (Option.some.inj e).symm))⟩
                                                                | Korean => exact ⟨fun e => h17 (Or.inl e.symm), fun e => h17 (Or.inr (Or.inl (Option.some.inj e).symm)), fun e => h17 (Or.inr (Or.inr (Option.some.inj e).symm))⟩
                                                                | Norwegian => exact ⟨fun e => h18 (Or.inl e.symm), fun e => h18 (Or.inr (Or.inl (Option.some.inj e).symm)), fun e => h18 (Or.inr (Or.inr (Option.some.inj e).symm))⟩
                                                                | Polish => exact ⟨fun e => h19 (Or.inl e.symm), fun e => h19 (Or.inr (Or.inl (Option.some.inj e).symm)), fun e => h19 (Or.inr (Or.inr (Option.some.inj e).symm))⟩
                                                                | Portuguese => exact ⟨fun e => h20 (Or.inl e.symm), fun e => h20 (Or.inr (Or.inl (Option.some.inj e).symm)), fun e => h20 (Or.inr (Or.inr (Option.some.inj e).symm))⟩
                                                                | PortugueseBrazilian => exact ⟨fun e => h21 (Or.inl e.symm), fun e => h21 (Or.inr (Or.inl (Option.some.inj e).symm)), fun e => h21 (Or.inr (Or.inr (Option.some.inj e).symm))⟩
                                                                | Romanian => exact ⟨fun e => h22 (Or.inl e.symm), fun e => h22 (Or.inr (Or.inl (Option.some.inj e).symm)), fun e => h22 (Or.inr (Or.inr (Option.some.inj e).symm))⟩
                                                                | Russian => exact ⟨fun e => h23 (Or.inl e.symm), fun e => h23 (Or.inr (Or.inl (Option.some.inj e).symm)), fun e => h23 (Or.inr (Or.inr (Option.some.inj e).symm))⟩
                                                                | SpanishSpain => exact ⟨fun e => h24 (Or.inl e.symm), fun e => h24 (Or.inr (Or.inl (Option.some.inj e).symm)), fun e => h24 (Or.inr (Or.inr (Option.some.inj e).symm))⟩
                                                                | SpanishLatAm => exact ⟨fun e => h25 (Or.inl e.symm), fun e => h25 (Or.inr (Or.inl (Option.some.inj e).symm)), fun e => h25 (Or.inr (Or.inr (Option.some.inj e).symm))⟩
                                                                | Swedish => exact ⟨fun e => h26 (Or.inl e.symm), fun e => h26 (Or.inr (Or.inl (Option.some.inj e).symm)), fun e => h26 (Or.inr (Or.inr (Option.some.inj e).symm))⟩
                                                                | Thai => exact ⟨fun e => h27 (Or.inl e.symm), fun e => h27 (Or.inr (Or.inl (Option.some.inj e).symm)), fun e => h27 (Or.inr (Or.inr (Option.some.inj e).symm))⟩
                                                                | Turkish => exact ⟨fun e => h28 (Or.inl e.symm), fun e => h28 (Or.inr (Or.inl (Option.some.inj e).symm)), fun e => h28 (Or.inr (Or.inr (Option.some.inj e).symm))⟩
                                                                | Ukrainian => exact ⟨fun e => h29 (Or.inl e.symm), fun e => h29 (Or.inr (Or.inl (Option.some.inj e).symm)), fun e => h29 (Or.inr (Or.inr (Option.some.inj e).symm))⟩
                                                                | Vietnamese => exact ⟨fun e => h30 (Or.inl e.symm), fun e => h30 (Or.inr (Or.inl (Option.some.inj e).symm)), fun e => h30 (Or.inr (Or.inr (Option.some.inj e).symm))⟩
                                                              exact (from_str_ref_eq_error s hall).symm

/-- Claim C1: for every variant v of Language, parsing the wire form round
trips: from_str (as_str v) = ok v. -/
theorem language_wire_roundtrip : ∀ v : Language, Language.from_str (Language.as_str v) = .ok v := by
  intro v
  cases v <;> rfl

/-- Claim C2, counterexample: from_str is not the three phase algorithm over
the as_str, native_name and language_code tables: at the input fi the
reference succeeds with Finnish while from_str fails. -/
theorem from_str_spec_counterexample :
    Language.from_str "fi" = .error ⟨⟩ ∧ from_str_spec "fi" = .ok .Finnish :=
  ⟨rfl, rfl⟩

/-- Claim C2, amended: from_str equals the three phase first-match algorithm
over the parser arms own three pattern columns; the first column is exactly
the as_str table, the second is the native_name table except that All has no
second pattern, and the third is the language_code table except that All has
no third pattern, Finnish uses fl and Greek uses el. -/
theorem from_str_three_phase_amended :
    (∀ s : String, Language.from_str s = from_str_ref s) ∧
    (∀ v : Language, parser_wire v = Language.as_str v) ∧
    parser_native Language.All = none ∧
    (∀ v : Language, v ≠ Language.All → parser_native v = some (Language.native_name v)) ∧
    parser_short Language.All = none ∧
    parser_short Language.Finnish = some "fl" ∧
    parser_short Language.Greek = some "el" ∧
    (∀ v : Language, v ≠ Language.All → v ≠ Language.Finnish → v ≠ Language.Greek →
      parser_short v = some (Language.language_code v)) := by
  refine ⟨from_str_eq_ref, ?_, rfl, ?_, rfl, rfl, rfl, ?_⟩
  · intro v
    cases v <;> rfl
  · intro v h1
    cases v <;> first | exact absurd rfl h1 | rfl
  · intro v h1 h2 h3
    cases v <;> first | exact absurd rfl h1 | exact absurd rfl h2 | exact absurd rfl h3 | rfl

/-- Claim C2, witness for the amended theorem at concrete inputs. -/
theorem from_str_three_phase_amended_witness :
    Language.from_str "czech" = from_str_ref "czech" ∧
    parser_native Language.Czech = some (Language.native_name Language.Czech) ∧
    parser_short Language.Czech = some (Language.language_code Language.Czech) :=
  ⟨from_str_three_phase_amended.1 "czech",
   from_str_three_phase_amended.2.2.2.1 Language.Czech (by decide),
   from_str_three_phase_amended.2.2.2.2.2.2.2 Language.Czech (by decide) (by decide) (by decide)⟩

/-- Claim C3, counterexample: the language_code of Finnish is fi, yet
from_str fi fails, so parsing the short code does not round trip. -/
theorem short_code_parse_counterexample :
    Language.language_code Language.Finnish = "fi" ∧
    Language.from_str "fi" = .error ⟨⟩ ∧
    Language.from_str (Language.language_code Language.Finnish) ≠ .ok Language.Finnish :=
  ⟨rfl, rfl, by decide⟩

/-- Claim C3, amended: for every variant other than Finnish and Greek,
parsing the language_code round trips; the language_code table itself has no
duplicates, and the two excluded variants fail because from_str spells their
short patterns fl and el instead. -/
theorem short_code_parse_amended (v : Language) (h1 : v ≠ Language.Finnish)
    (h2 : v ≠ Language.Greek) :
    Language.from_str (Language.language_code v) = .ok v := by
  cases v <;> first | exact absurd rfl h1 | exact absurd rfl h2 | rfl

/-- Claim C3, witness at a concrete variant. -/
theorem short_code_parse_amended_witness :
    Language.from_str (Language.language_code Language.Czech) = .ok Language.Czech :=
  short_code_parse_amended Language.Czech (by decide) (by decide)

/-- Claim C4, counterexample: from_str English succeeds with English rather
than failing, because English is also the native name of the variant. -/
theorem case_sensitivity_counterexample :
    Language.from_str "English" = .ok Language.English ∧
    Language.from_str "English" ≠ .error ⟨⟩ :=
  ⟨rfl, by decide⟩

/-- Claim C4, amended: matching is exact string with no case folding, but the
capitalized input English succeeds as the native name of English; an input in
no table, such as ENGLISH, fails while english succeeds. -/
theorem case_sensitivity_amended :
    Language.from_str "english" = .ok Language.English ∧
    Language.from_str "English" = .ok Language.English ∧
    Language.from_str "ENGLISH" = .error ⟨⟩ :=
  ⟨rfl, rfl, rfl⟩

/-- Claim C5, counterexample: from_str el el fails, so the Greek short code
does not parse back to Greek. -/
theorem greek_short_code_counterexample :
    Language.from_str "el el" = .error ⟨⟩ ∧
    Language.from_str "el el" ≠ .ok Language.Greek :=
  ⟨rfl, by decide⟩

/-- Claim C5, amended: the language_code of Greek is exactly el el with the
embedded space, but from_str rejects el el; the parser instead accepts the
bare el for Greek. -/
theorem greek_short_code_amended :
    Language.language_code Language.Greek = "el el" ∧
    Language.from_str "el el" = .error ⟨⟩ ∧
    Language.from_str "el" = .ok Language.Greek :=
  ⟨rfl, rfl, rfl⟩

/-- Claim C6, counterexample: the native name of All is the capitalized All,
which from_str rejects, so the native name round trip fails at All. -/
theorem native_name_roundtrip_counterexample :
    Language.from_str (Language.native_name Language.All) = .error ⟨⟩ ∧
    Language.from_str (Language.native_name Language.All) ≠ .ok Language.All :=
  ⟨rfl, by decide⟩

/-- Claim C6, amended: parsing the native name round trips for every variant
except All, whose native name All is not a parser pattern, and except
TraditionalChinese, Korean, Thai and Russian, whose corrupted placeholder
native names equal the corrupted native name of an earlier variant and
therefore resolve, first match wins, to SimplifiedChinese, Japanese,
Japanese and Arabic respectively. -/
theorem native_name_roundtrip_amended :
    (∀ v : Language, v ≠ Language.All → v ≠ Language.TraditionalChinese →
      v ≠ Language.Korean → v ≠ Language.Thai → v ≠ Language.Russian →
      Language.from_str (Language.native_name v) = .ok v) ∧
    Language.from_str (Language.native_name Language.All) = .error ⟨⟩ ∧
    Language.from_str (Language.native_name Language.TraditionalChinese) = .ok Language.SimplifiedChinese ∧
    Language.from_str (Language.native_name Language.Korean) = .ok Language.Japanese ∧
    Language.from_str (Language.native_name Language.Thai) = .ok Language.Japanese ∧
    Language.from_str (Language.native_name Language.Russian) = .ok Language.Arabic := by
  refine ⟨?_, rfl, rfl, rfl, rfl, rfl⟩
  intro v h1 h2 h3 h4 h5
  cases v <;> first
    | exact absurd rfl h1
    | exact absurd rfl h2
    | exact absurd rfl h3
    | exact absurd rfl h4
    | exact absurd rfl h5
    | rfl

/-- Claim C6, witness for the amended theorem at a concrete variant. -/
theorem native_name_roundtrip_amended_witness :
    Language.from_str (Language.native_name Language.French) = .ok Language.French :=
  native_name_roundtrip_amended.1 Language.French (by decide) (by decide) (by decide) (by decide) (by decide)

/-- Claim C7: the wire form is injective over the variants. -/
theorem wire_form_injective :
    ∀ v1 v2 : Language, v1 ≠ v2 → Language.as_str v1 ≠ Language.as_str v2 := by
  decide

/-- Claim C7, witness at a concrete pair of distinct variants. -/
theorem wire_form_injective_witness :
    Language.All ≠ Language.Arabic ∧ Language.as_str Language.All ≠ Language.as_str Language.Arabic :=
  ⟨by decide, wire_form_injective Language.All Language.Arabic (by decide)⟩

/-- Claim C8: from_str of meow talk fails with the parse error; the error
type carries no payload, so all its values are equal, and it renders one
fixed message. The remaining operations are embedded as total functions into
String, Nat and Int, so they have no failure path at all. -/
theorem parse_failure_error_properties :
    Language.from_str "meow talk" = .error ⟨⟩ ∧
    (∀ e1 e2 : LangParseError, e1 = e2) ∧
    (∀ e : LangParseError, langParseErrorMessage e =
      "Tried to a parse an unlisted language. Please report! Valve probably added in new languages since I last updated.") := by
  refine ⟨rfl, ?_, fun _ => rfl⟩
  intro e1 e2
  cases e1
  cases e2
  rfl

/-- Claim C9: decoding then encoding Minutes is the identity on every u32
value, the same holds for UnixTimestamp on every i64 value, and the Into i64
conversion is total and returns exactly the wrapped value. -/
theorem scalar_roundtrip :
    (∀ n : Nat, n < 2 ^ 32 → Minutes.serialize (Minutes.deserialize n) = n) ∧
    (∀ i : Int, -(2 ^ 63) ≤ i → i < 2 ^ 63 →
      UnixTimestamp.serialize (UnixTimestamp.deserialize i) = i) ∧
    (∀ t : UnixTimestamp, UnixTimestamp.into_i64 t = t.val) :=
  ⟨fun _ _ => rfl, fun _ _ _ => rfl, fun _ => rfl⟩

/-- Claim C9, witness at concrete integers. -/
theorem scalar_roundtrip_witness :
    Minutes.serialize (Minutes.deserialize 360) = 360 ∧
    UnixTimestamp.serialize (UnixTimestamp.deserialize (-5)) = -5 :=
  ⟨scalar_roundtrip.1 360 (by decide), scalar_roundtrip.2.1 (-5) (by decide) (by decide)⟩

/-- Claim C10: the parser accepts the bare el for Greek and the misspelled fl
for Finnish even though the language_code table says el el and fi, and
consequently from_str fi fails. -/
theorem parser_code_quirks :
    Language.from_str "el" = .ok Language.Greek ∧
    Language.language_code Language.Greek = "el el" ∧
    Language.from_str "fl" = .ok Language.Finnish ∧
    Language.language_code Language.Finnish = "fi" ∧
    Language.from_str "fi" = .error ⟨⟩ :=
  ⟨rfl, rfl, rfl, rfl, rfl⟩

end SteamUserReviews
